import Mathlib

/-!
Verification development for the MCP chrome-extension bridge repository.

The development shallowly embeds the three components the specification's
claims are about:

* the MCP Router (`src/chrome` core: `createRouter`, `callTool`, `handle`);
* the WebSocket bridge server's session layer
  (`packages/wss-bridge/src/server.ts` and `auth/index.ts`:
  `handleMessage`, `checkRateLimit`, `isSessionExpired`,
  `cleanupExpiredSessions`, `sendError`);
* the extension's WebSocket client transport (`WebSocketTransport`:
  `connect`, `disconnect`, `handleClose`, `reconnect`, heartbeat).

JavaScript runtime values are modelled by the inductive `JVal`; a thrown
JavaScript exception is modelled by the `Except JsErr` monad (an `async`
function that throws synchronously is a rejected promise, so throwing and
rejecting coincide in this model).
-/

set_option autoImplicit false

/-- A JavaScript/JSON runtime value: `null`, `undefined`, booleans, numbers
(modelled as integers), strings, arrays and plain objects
(association lists of own properties, first match wins on lookup). -/
inductive JVal where
  | null
  | undefined
  | bool (b : Bool)
  | num (n : Int)
  | str (s : String)
  | arr (elems : List JVal)
  | obj (fields : List (String × JVal))

/-- A thrown JavaScript exception, restricted to the error classes the
embedded code can actually throw: runtime `TypeError`s (property access on
`null`/`undefined`, destructuring of a nullish value), plain `Error`s, and
the repository's `ToolExecutionError` (message, `toolName`, optional cause)
and `ValidationError`. -/
inductive JsErr where
  | typeError (message : String)
  | error (message : String)
  | toolExecutionError (message : String) (toolName : String) (cause : Option JsErr)
  | validationError (message : String) (field : Option String)

/-- `error.message` — every modelled throwable is an `Error` instance, so
`error instanceof Error ? error.message : String(error)` always takes the
first branch. -/
def JsErr.message : JsErr → String
  | .typeError m => m
  | .error m => m
  | .toolExecutionError m _ _ => m
  | .validationError m _ => m

/-- JavaScript truthiness (`!v` negates this). `NaN` does not arise because
numbers are modelled as integers. -/
def JVal.truthy : JVal → Bool
  | .null => false
  | .undefined => false
  | .bool b => b
  | .num n => decide (n ≠ 0)
  | .str s => decide (s ≠ "")
  | .arr _ => true
  | .obj _ => true

/-- First-match lookup of an own property in an object's field list. -/
def lookupField (fields : List (String × JVal)) (key : String) : Option JVal :=
  (fields.find? (fun p => p.1 == key)).map (fun p => p.2)

/-- Property access `v[key]` / `v.key`: throws a `TypeError` on
`null`/`undefined`, returns the property (or `undefined`) on objects, and
`undefined` on every other primitive and on arrays (no modelled message
field is a numeric index or an inherited property). -/
def JVal.getField : JVal → String → Except JsErr JVal
  | .null, key => .error (.typeError ("Cannot read properties of null (reading " ++ key ++ ")"))
  | .undefined, key => .error (.typeError ("Cannot read properties of undefined (reading " ++ key ++ ")"))
  | .obj fields, key => .ok ((lookupField fields key).getD .undefined)
  | _, _ => .ok .undefined

/-- The `in` operator `key in v`: throws a `TypeError` when `v` is not an
object, otherwise reports whether the property exists. -/
def JVal.hasProp : JVal → String → Except JsErr Bool
  | .obj fields, key => .ok (lookupField fields key).isSome
  | .arr _, _ => .ok false
  | .null, _ => .error (.typeError "Cannot use 'in' operator on null")
  | .undefined, _ => .error (.typeError "Cannot use 'in' operator on undefined")
  | _, _ => .error (.typeError "Cannot use 'in' operator on a primitive")

mutual
/-- JavaScript `String(v)` coercion, as used by template literals and by
object property keys. -/
def jsToString : JVal → String
  | .null => "null"
  | .undefined => "undefined"
  | .bool true => "true"
  | .bool false => "false"
  | .num n => toString n
  | .str s => s
  | .arr elems => jsToStringList elems
  | .obj _ => "[object Object]"

/-- `Array.prototype.toString`: elements joined with commas. -/
def jsToStringList : List JVal → String
  | [] => ""
  | [v] => jsToString v
  | v :: w :: rest => jsToString v ++ "," ++ jsToStringList (w :: rest)
end

/-! ## Router (`src/chrome/core`: protocol types, errors, router) -/

/-- A content item of a tool result (`protocol.ts`): text, or a base64
image with a mime type. -/
inductive ContentItem where
  | text (text : String)
  | image (data : String) (mimeType : String)

/-- `ToolResult` (`types.ts`): ordered content plus the optional
`isError?: boolean` flag. -/
structure ToolResult where
  content : List ContentItem
  isError : Option Bool

/-- `McpError` (`protocol.ts`): code and human-readable message.  The
diagnostic `data` payload (stack trace / cause) carries no information the
claims are about and is not modelled. -/
structure McpError where
  code : Int
  message : String

/-- The value handed to `normalizeError`: a thrown `Error` instance, a
string, or any other value. -/
inductive ErrInput where
  | thrown (e : JsErr)
  | strVal (s : String)
  | otherVal (v : JVal)

/-- `normalizeError` (`errors.ts`): an `Error` yields its message, a string
yields itself, anything else yields "Unknown error occurred"; the code is
always `-1`. -/
def normalizeError : ErrInput → McpError
  | .thrown e => { code := -1, message := e.message }
  | .strVal s => { code := -1, message := s }
  | .otherVal _ => { code := -1, message := "Unknown error occurred" }

/-- `ToolDefinition` (`types.ts`).  The input schema is opaque to the
router's control flow and is carried as a `JVal`; the optional annotation
metadata is never read by the router and is elided. -/
structure ToolDefinition where
  name : String
  description : String
  inputSchema : JVal

/-- `ToolInfo` (`protocol.ts`): the slice of a definition echoed by
`tools/list`. -/
structure ToolInfo where
  name : String
  description : String
  inputSchema : JVal

/-- `RouterContext`: an object of named capabilities and extra keys.  The
values (including capability functions) are opaque to the router, which
only merges and forwards them; they are carried as `JVal` tokens. -/
abbrev RouterContext := List (String × JVal)

/-- Property lookup on a context object. -/
def ctxLookup (context : RouterContext) (key : String) : Option JVal :=
  (List.find? (fun p => p.1 == key) context).map (fun p => p.2)

/-- The object-spread merge `\x7b ...defaultContext, ...context \x7d` of
`callTool`/`handleToolsCall`: the override's entries win on key collision,
base-only keys stay visible.  Modelled as an association list searched
override-first, which has the same lookup semantics as the spread. -/
def mergeContext (base override : RouterContext) : RouterContext :=
  override ++ base

/-- A `ToolHandler` (`types.ts`): from (arguments, merged context) to a
`ToolResult` or a thrown failure. -/
abbrev ToolHandler := JVal → RouterContext → Except JsErr ToolResult

/-- The `ToolHandlers` name-to-handler mapping. -/
abbrev ToolHandlers := List (String × ToolHandler)

/-- Handler lookup `handlers[name]`. -/
def lookupHandler (handlers : ToolHandlers) (name : String) : Option ToolHandler :=
  (List.find? (fun p => p.1 == name) handlers).map (fun p => p.2)

/-- `RouterConfig` (`types.ts`): definitions, handlers, optional base
context (defaulting to the empty object). -/
structure RouterConfig where
  toolDefs : List ToolDefinition
  handlers : ToolHandlers
  context : RouterContext := []

/-- The state closed over by the object `createRouter` returns. -/
structure RouterModel where
  toolDefs : List ToolDefinition
  handlers : ToolHandlers
  defaultContext : RouterContext

/-- `createRouter` (`router.ts`): walks the definitions and throws
`Missing handler for tool: ...` at the first definition whose name has no
handler (`!handlers[toolDef.name]`; a registered handler is a function and
hence truthy); otherwise returns the router closure. -/
def createRouter (config : RouterConfig) : Except JsErr RouterModel :=
  match List.find? (fun d => (lookupHandler config.handlers d.name).isNone) config.toolDefs with
  | some d => .error (.error ("Missing handler for tool: " ++ d.name ++
      ". Please provide a handler in the handlers object."))
  | none => .ok
      { toolDefs := config.toolDefs
        handlers := config.handlers
        defaultContext := config.context }

/-- `callTool` (`router.ts`): looks the handler up by name, throws a
`ToolExecutionError` carrying the tool name when absent, otherwise invokes
the handler on the spread-merged context and wraps any thrown handler
failure in a `ToolExecutionError` (message, tool name, cause). -/
def RouterModel.callTool (r : RouterModel) (name : String) (params : JVal)
    (context : RouterContext) : Except JsErr ToolResult :=
  match lookupHandler r.handlers name with
  | none => .error (.toolExecutionError ("Tool not found: " ++ name) name none)
  | some handler =>
    match handler params (mergeContext r.defaultContext context) with
    | .ok result => .ok result
    | .error e => .error (.toolExecutionError
        ("Error executing tool " ++ name ++ ": " ++ e.message) name (some e))

/-- `ToolsCallResponse` (`protocol.ts`). -/
structure ToolsCallResponse where
  content : List ContentItem
  isError : Option Bool

/-- `handleToolsList` (`router.ts`): echoes name, description and
inputSchema of every registered definition. -/
def RouterModel.handleToolsList (r : RouterModel) : List ToolInfo :=
  r.toolDefs.map (fun d =>
    { name := d.name, description := d.description, inputSchema := d.inputSchema })

/-- `handleToolsCall` (`router.ts`).  Destructuring
`const \x7b name, arguments: args = \x7b\x7d \x7d = request.params` throws a
`TypeError` when `params` is nullish; a missing `arguments` field defaults
to the empty object.  `handlers[name]` coerces the name to a property key.
A missing handler throws a `ToolExecutionError` (outside the try block); a
handler failure is caught and turned into an `isError: true` response. -/
def RouterModel.handleToolsCall (r : RouterModel) (request : JVal)
    (context : RouterContext) : Except JsErr ToolsCallResponse := do
  let mth ← request.getField "method"
  let isCall := match mth with | .str s => s == "tools/call" | _ => false
  if !isCall then
    throw (.error "Invalid request method")
  let rawParams ← request.getField "params"
  let nameVal ← rawParams.getField "name"
  let argsVal ← rawParams.getField "arguments"
  let args := match argsVal with | .undefined => JVal.obj [] | v => v
  let key := jsToString nameVal
  match lookupHandler r.handlers key with
  | none => throw (.toolExecutionError ("Tool not found: " ++ key) key none)
  | some handler =>
    match handler args (mergeContext r.defaultContext context) with
    | .ok result =>
      pure ({ content := result.content, isError := result.isError } : ToolsCallResponse)
    | .error e =>
      pure ({ content := [.text ("Error executing tool " ++ key ++ ": " ++ e.message)]
              isError := some true } : ToolsCallResponse)

/-- The protocol-level value `handle` resolves with: a `tools/list`
response, a `tools/call` response, or an `\x7b error \x7d` envelope. -/
inductive HandleResult where
  | listResp (tools : List ToolInfo)
  | callResp (response : ToolsCallResponse)
  | errResp (error : McpError)

/-- `handle` (`router.ts`).  `msg.method` is read before the try block, so
a nullish message rejects with a raw `TypeError`; a falsy method yields the
missing-method error envelope; the switch dispatches on the method and its
try/catch converts anything `handleToolsCall` throws into an error
envelope; unknown methods yield an error envelope with the coerced
method. -/
def RouterModel.handle (r : RouterModel) (message : JVal)
    (context : RouterContext) : Except JsErr HandleResult := do
  let mth ← message.getField "method"
  if !mth.truthy then
    return .errResp (normalizeError (.strVal "Missing method in request"))
  match mth with
  | .str "tools/list" => return .listResp r.handleToolsList
  | .str "tools/call" =>
    match r.handleToolsCall message context with
    | .ok resp => return .callResp resp
    | .error e => return .errResp (normalizeError (.thrown e))
  | other => return .errResp (normalizeError (.strVal ("Unknown method: " ++ jsToString other)))

/-! ## Bridge server session layer (`packages/wss-bridge/src`) -/

/-- `config.rateLimit` (`types/index.ts`). -/
structure RateLimitConfig where
  windowMs : Int
  maxRequests : Nat

/-- `config.session` (`types/index.ts`). -/
structure SessionConfig where
  timeoutMs : Int

/-- `BridgeConfig` (`types/index.ts`): the configuration surface the
session layer reads. -/
structure BridgeConfig where
  port : Nat
  apiKeys : List String
  allowedOrigins : List String
  rateLimit : RateLimitConfig
  session : SessionConfig

/-- A `Session` (`types/index.ts`).  The underlying socket handle is not
part of the pure state; socket operations appear as `BridgeEffect`s.
Timestamps are epoch milliseconds. -/
structure Session where
  id : String
  authenticated : Bool
  createdAt : Int
  lastActivityAt : Int
  requestCount : Nat
  rateLimitResetAt : Int

/-- `AuthManager.validateApiKey`: rejects falsy or non-string keys, then
checks membership in the configured key list. -/
def validateApiKey (config : BridgeConfig) (apiKey : JVal) : Bool :=
  match apiKey with
  | .str s => (!(s == "")) && config.apiKeys.contains s
  | _ => false

/-- `AuthManager.validateOrigin`: absence (or emptiness, via the truthiness
check) of the origin rejects; a wildcard entry accepts all; otherwise the
origin must be listed. -/
def validateOrigin (config : BridgeConfig) (origin : Option String) : Bool :=
  match origin with
  | none => false
  | some o =>
    if o == "" then false
    else if config.allowedOrigins.contains "*" then true
    else config.allowedOrigins.contains o

/-- `AuthManager.checkRateLimit`: lazily resets the window when `now` has
passed the stored reset time, increments the counter, and allows the
message iff the counter does not exceed the configured maximum.  Returns
(allowed, mutated session). -/
def checkRateLimit (config : BridgeConfig) (now : Int) (session : Session) :
    Bool × Session :=
  let session1 :=
    if now > session.rateLimitResetAt then
      { session with requestCount := 0, rateLimitResetAt := now + config.rateLimit.windowMs }
    else session
  let session2 := { session1 with requestCount := session1.requestCount + 1 }
  let exceeded := decide (session2.requestCount > config.rateLimit.maxRequests)
  (!exceeded, session2)

/-- `AuthManager.isSessionExpired`: idle time strictly above the configured
timeout. -/
def isSessionExpired (config : BridgeConfig) (now : Int) (session : Session) : Bool :=
  decide (now - session.lastActivityAt > config.session.timeoutMs)

/-- The `\x7b type: "pong", timestamp \x7d` reply. -/
def pongMessage (now : Int) : JVal :=
  .obj [("type", .str "pong"), ("timestamp", .num now)]

/-- The `AuthSuccessResponse` payload. -/
def authSuccessMessage (sessionId : String) : JVal :=
  .obj [("type", .str "auth_success"), ("sessionId", .str sessionId),
        ("message", .str "Authentication successful")]

/-- The `AuthErrorResponse` payload. -/
def authErrorMessage (message : String) : JVal :=
  .obj [("type", .str "auth_error"), ("message", .str message)]

/-- `sendError` (`server.ts`): builds
`\x7b jsonrpc: "2.0", error: \x7b code, message \x7d \x7d` — no `id` field.
The source defaults the code to 400; call sites are modelled with their
effective code. -/
def sendErrorPayload (code : Int) (message : String) : JVal :=
  .obj [("jsonrpc", .str "2.0"),
        ("error", .obj [("code", .num code), ("message", .str message)])]

/-- An observable socket action of the bridge server.  `forwardToolCall`
stands for `handleToolCall`, which proxies the envelope to the upstream MCP
client and relays its result. -/
inductive BridgeEffect where
  | send (payload : JVal)
  | closeSocket (code : Nat) (reason : String)
  | forwardToolCall (message : JVal)

/-- `'type' in message && message.type === tag` — the common shape of
`isPingMessage`/`isAuthMessage`. -/
def isTypeTagged (message : JVal) (tag : String) : Except JsErr Bool := do
  let hasType ← message.hasProp "type"
  if !hasType then return false
  let t ← message.getField "type"
  match t with
  | .str s => return s == tag
  | _ => return false

/-- `isPingMessage` (`server.ts`). -/
def isPingMessage (message : JVal) : Except JsErr Bool :=
  isTypeTagged message "ping"

/-- `isAuthMessage` (`server.ts`). -/
def isAuthMessage (message : JVal) : Except JsErr Bool :=
  isTypeTagged message "auth"

/-- `isBridgeMessage` (`server.ts`):
`'jsonrpc' in message || 'method' in message`. -/
def isBridgeMessage (message : JVal) : Except JsErr Bool := do
  let hasJsonrpc ← message.hasProp "jsonrpc"
  if hasJsonrpc then return true
  message.hasProp "method"

/-- `handleAuth` (`server.ts`): a valid key flips `authenticated` and
replies success with the session id; an invalid key replies `auth_error`
and force-closes the socket with code 1008. -/
def handleAuth (config : BridgeConfig) (session : Session) (message : JVal) :
    Except JsErr (Session × List BridgeEffect) := do
  let apiKey ← message.getField "apiKey"
  if validateApiKey config apiKey then
    let session1 := { session with authenticated := true }
    return (session1, [.send (authSuccessMessage session1.id)])
  else
    return (session, [.send (authErrorMessage "Invalid API key"),
                      .closeSocket 1008 "Invalid API key"])

/-- `handleMessage` (`server.ts`), the per-message session step: update
`lastActivityAt`; reply "Invalid JSON message" to malformed payloads
(modelled as `none`); answer pings with a pong; process auth messages;
reply "Not authenticated" and force-close for any other message from an
unauthenticated session; apply the rate limiter (replying a code-429 error
without closing on excess); forward bridge messages to the upstream proxy
and reply "Unknown message type" to everything else.  The single `now`
models the wall clock of this event-loop turn. -/
def handleMessage (config : BridgeConfig) (now : Int) (session : Session)
    (parsed : Option JVal) : Except JsErr (Session × List BridgeEffect) := do
  let session0 := { session with lastActivityAt := now }
  match parsed with
  | none => return (session0, [.send (sendErrorPayload 400 "Invalid JSON message")])
  | some message =>
    let ping ← isPingMessage message
    if ping then
      return (session0, [.send (pongMessage now)])
    let auth ← isAuthMessage message
    if auth then
      handleAuth config session0 message
    else
      if !session0.authenticated then
        return (session0,
          [.send (authErrorMessage "Not authenticated. Send auth message first."),
           .closeSocket 1008 "Unauthorized"])
      let rl := checkRateLimit config now session0
      if !rl.1 then
        return (rl.2, [.send (sendErrorPayload 429 "Rate limit exceeded")])
      let bridge ← isBridgeMessage message
      if bridge then
        return (rl.2, [.forwardToolCall message])
      else
        return (rl.2, [.send (sendErrorPayload 400 "Unknown message type")])

/-- `cleanupExpiredSessions` (`server.ts`): one sweep over the session
table in iteration order; every expired session's socket is closed with
code 1000 ("Session expired") and its entry deleted.  Returns the remaining
table and the ids of the closed sessions. -/
def cleanupExpiredSessions (config : BridgeConfig) (now : Int) :
    List (String × Session) → List (String × Session) × List String
  | [] => ([], [])
  | entry :: rest =>
    let res := cleanupExpiredSessions config now rest
    if isSessionExpired config now entry.2 then
      (res.1, entry.1 :: res.2)
    else
      (entry :: res.1, res.2)

/-! ## WebSocket client transport (`WebSocketTransport`) -/

/-- `ConnectionState` (`types.ts`). -/
inductive ConnectionState where
  | disconnected
  | connecting
  | connected
  | reconnecting
  | error
  deriving DecidableEq

/-- `WebSocketTransportConfig`: the optional fields keep their
TypeScript optionality. -/
structure WebSocketTransportConfig where
  serverUrl : String
  apiKey : Option String
  reconnect : Option Bool
  maxReconnectAttempts : Option Nat

/-- The mutable instance fields of `WebSocketTransport`.  The socket handle
is modelled by `hasSocket` (an open `ws !== null`), the pending-request map
by its list of keys (the resolve/reject continuations are observable only
through `WSEffect`s), and the heartbeat interval handle by `heartbeatOn`. -/
structure WSTransport where
  hasSocket : Bool
  serverUrl : String
  apiKey : Option String
  reconnectEnabled : Bool
  maxReconnectAttempts : Nat
  reconnectAttempts : Nat
  reconnectDelay : Nat
  state : ConnectionState
  pendingRequests : List String
  heartbeatOn : Bool
  authenticated : Bool

/-- An observable action of the client transport. -/
inductive WSEffect where
  | closeSocket (code : Nat) (reason : String)
  | rejectPending (id : String) (message : String)

/-- The constructor: `reconnect !== false` enables reconnection,
`maxReconnectAttempts || 5` treats an absent (or zero, being falsy) value
as 5, the backoff delay starts at its 1000 ms floor. -/
def mkTransport (config : WebSocketTransportConfig) : WSTransport :=
  { hasSocket := false
    serverUrl := config.serverUrl
    apiKey := config.apiKey
    reconnectEnabled := config.reconnect != some false
    maxReconnectAttempts :=
      match config.maxReconnectAttempts with
      | some n => if n == 0 then 5 else n
      | none => 5
    reconnectAttempts := 0
    reconnectDelay := 1000
    state := .disconnected
    pendingRequests := []
    heartbeatOn := false
    authenticated := false }

/-- `updateState`: stores the new state (the equality guard and the
observer callback do not change the stored field). -/
def updateState (t : WSTransport) (newState : ConnectionState) : WSTransport :=
  { t with state := newState }

/-- `startHeartbeat`: clears any previous interval and arms a new one. -/
def startHeartbeat (t : WSTransport) : WSTransport :=
  { t with heartbeatOn := true }

/-- `stopHeartbeat`. -/
def stopHeartbeat (t : WSTransport) : WSTransport :=
  { t with heartbeatOn := false }

/-- `connect()`: a no-op while `connected` or `connecting`; otherwise
transitions to `connecting` and opens a socket. -/
def WSTransport.connect (t : WSTransport) : WSTransport :=
  if t.state = .connected ∨ t.state = .connecting then t
  else { (updateState t .connecting) with hasSocket := true }

/-- The `onopen` handler: resets the attempt counter and the backoff delay
to the 1000 ms floor; without an API key it marks the transport
authenticated, transitions to `connected` and starts the heartbeat; with a
key it sends the auth message and waits (see `onAuthSuccess`). -/
def WSTransport.onOpen (t : WSTransport) : WSTransport :=
  let t1 := { t with reconnectAttempts := 0, reconnectDelay := 1000 }
  match t1.apiKey with
  | some _ => t1
  | none => startHeartbeat { (updateState t1 .connected) with authenticated := true }

/-- The `auth_success` branch of the temporary auth listener. -/
def WSTransport.onAuthSuccess (t : WSTransport) : WSTransport :=
  startHeartbeat (updateState { t with authenticated := true } .connected)

/-- `handleClose`: stops the heartbeat and drops authentication; with
reconnection enabled and attempts remaining it transitions to
`reconnecting` and `reconnect()` increments the counter and schedules a
retry after the *current* `reconnectDelay` (returned as `some delay`);
otherwise it transitions terminally to `disconnected` (`none`). -/
def WSTransport.handleClose (t : WSTransport) : WSTransport × Option Nat :=
  let t1 := { (stopHeartbeat t) with authenticated := false, hasSocket := false }
  if t1.reconnectEnabled && decide (t1.reconnectAttempts < t1.maxReconnectAttempts) then
    let t2 := { (updateState t1 .reconnecting) with
                  reconnectAttempts := t1.reconnectAttempts + 1 }
    (t2, some t2.reconnectDelay)
  else
    (updateState t1 .disconnected, none)

/-- The reconnect timer firing: calls `connect()` and then doubles the
delay up to the 30000 ms ceiling
(`reconnectDelay = Math.min(reconnectDelay * 2, 30000)`). -/
def WSTransport.fireReconnectTimer (t : WSTransport) : WSTransport :=
  let t1 := t.connect
  { t1 with reconnectDelay := min (t1.reconnectDelay * 2) 30000 }

/-- `disconnect()`: disables reconnection, stops the heartbeat, closes the
socket (code 1000), rejects every pending request with "Connection closed",
clears the table, drops authentication and transitions to
`disconnected`. -/
def WSTransport.disconnect (t : WSTransport) : WSTransport × List WSEffect :=
  let t1 := stopHeartbeat { t with reconnectEnabled := false }
  let closeEffects : List WSEffect :=
    if t1.hasSocket then [.closeSocket 1000 "Client disconnect"] else []
  let rejectEffects :=
    t1.pendingRequests.map (fun id => WSEffect.rejectPending id "Connection closed")
  let t2 := { t1 with hasSocket := false, pendingRequests := [], authenticated := false }
  (updateState t2 .disconnected, closeEffects ++ rejectEffects)

/-- `sendMessage`: requires `authenticated` and an open socket, then
registers the (freshly generated, here supplied) id in the pending-request
table.  The continuations and the 30 s timeout live in the effects
world. -/
def WSTransport.sendMessage (t : WSTransport) (id : String) : Except JsErr WSTransport :=
  if !t.authenticated || !t.hasSocket then
    .error (.error "Not connected to WebSocket server")
  else
    .ok { t with pendingRequests := t.pendingRequests ++ [id] }

/-- The inbound-message handler's effect on the pending table: a matched id
is removed (and resolved or rejected); pongs and unmatched messages leave
the table alone.  The 30 s timeout's eviction takes the same path. -/
def WSTransport.settlePending (t : WSTransport) (id : String) : WSTransport :=
  if t.pendingRequests.contains id then
    { t with pendingRequests := t.pendingRequests.filter (fun x => x != id) }
  else t

/-- `handleError`: transitions to `error` and notifies the observer. -/
def WSTransport.handleError (t : WSTransport) : WSTransport :=
  updateState t .error

/-- Every event that reaches a `WebSocketTransport` instance and can touch
its mutable fields. -/
inductive WSEvent where
  | connectCall
  | socketOpen
  | authSuccess
  | authError
  | socketError
  | socketClose
  | reconnectTimer
  | disconnectCall
  | sendRequest (id : String)
  | responseArrived (id : String)
  | requestTimeout (id : String)
  | heartbeatTick

/-- The state part of each event's handler (`auth_error` only rejects the
connect promise, and a heartbeat tick only sends a ping). -/
def applyEvent (t : WSTransport) : WSEvent → WSTransport
  | .connectCall => t.connect
  | .socketOpen => t.onOpen
  | .authSuccess => t.onAuthSuccess
  | .authError => t
  | .socketError => t.handleError
  | .socketClose => t.handleClose.1
  | .reconnectTimer => t.fireReconnectTimer
  | .disconnectCall => t.disconnect.1
  | .sendRequest id =>
    match t.sendMessage id with
    | .ok t1 => t1
    | .error _ => t
  | .responseArrived id => t.settlePending id
  | .requestTimeout id => t.settlePending id
  | .heartbeatTick => t

/-- The transport after the initial `connect()` call followed by `n`
complete failure cycles (socket close without a successful open, then the
reconnect timer firing). -/
def afterFailures (config : WebSocketTransportConfig) : Nat → WSTransport
  | 0 => (mkTransport config).connect
  | n + 1 => ((afterFailures config n).handleClose).1.fireReconnectTimer

/-- The delay `reconnect()` schedules before attempt `n + 1`, i.e. the
delay passed to `setTimeout` by the `n`-th close without an intervening
successful open (`none` when no retry is scheduled). -/
def scheduledReconnectDelay (config : WebSocketTransportConfig) : Nat → Option Nat
  | 0 => none
  | n + 1 => ((afterFailures config n).handleClose).2

/-! ## Concrete fixtures used by counterexamples and witnesses -/

/-- A router with no tools, no handlers and an empty base context. -/
def sampleRouter : RouterModel :=
  { toolDefs := [], handlers := [], defaultContext := [] }

/-- A `tools/call` message naming the unregistered tool "missing". -/
def sampleUnknownToolMsg : JVal :=
  .obj [("method", .str "tools/call"), ("params", .obj [("name", .str "missing")])]

/-- A handler that reports the merged context's value at `key` back through
the tool result, making the context the handler observes visible. -/
def probeHandler (key : String) : ToolHandler :=
  fun _ context =>
    .ok { content := [.text (jsToString ((ctxLookup context key).getD .undefined))]
          isError := some false }

/-- A bridge configuration with two API keys, a 60 s window of 2 requests
and a 300 s idle timeout. -/
def sampleBridgeConfig : BridgeConfig :=
  { port := 8012
    apiKeys := ["good-key", "other-key"]
    allowedOrigins := ["*"]
    rateLimit := { windowMs := 60000, maxRequests := 2 }
    session := { timeoutMs := 300000 } }

/-- A fresh, unauthenticated session created at time 0. -/
def sampleSession : Session :=
  { id := "session-1"
    authenticated := false
    createdAt := 0
    lastActivityAt := 0
    requestCount := 0
    rateLimitResetAt := 60000 }

/-- The sample session after successful authentication, having spent the
window's two requests. -/
def sampleBusySession : Session :=
  { sampleSession with authenticated := true, requestCount := 2 }

/-- A non-ping, non-auth bridge envelope. -/
def sampleBridgeMsg : JVal :=
  .obj [("id", .str "1"), ("jsonrpc", .str "2.0"), ("method", .str "tools/call")]

/-- The sample session after successful authentication, with an unspent
window. -/
def sampleAuthSession : Session :=
  { sampleSession with authenticated := true }

/-- A message that is neither ping, auth nor a bridge envelope (no `type`,
`jsonrpc` or `method` field). -/
def sampleUnknownTypeMsg : JVal :=
  .obj [("foo", .str "bar")]

/-- A client-transport configuration with every optional field absent. -/
def sampleWSConfig : WebSocketTransportConfig :=
  { serverUrl := "ws://localhost:8012"
    apiKey := none
    reconnect := none
    maxReconnectAttempts := none }

/-- Whether a payload has the generic error shape
`\x7b jsonrpc: "2.0", error: \x7b code, message \x7d \x7d` *without* an
`id` field. -/
def isGenericErrorShape : JVal → Bool
  | .obj fields =>
    (match lookupField fields "jsonrpc" with
     | some (.str s) => s == "2.0"
     | _ => false) &&
    (match lookupField fields "error" with
     | some (.obj efields) =>
       (match lookupField efields "code" with | some (.num _) => true | _ => false) &&
       (match lookupField efields "message" with | some (.str _) => true | _ => false)
     | _ => false) &&
    (lookupField fields "id").isNone
  | _ => false

/-! ## Theorems -/

/-- Claim C3: `createRouter` succeeds exactly when every declared tool name
has an entry in the handler mapping; a missing entry makes construction
throw immediately. -/
theorem createRouter_ok_iff_coverage (config : RouterConfig) :
    (createRouter config).isOk = true ↔
      ∀ d ∈ config.toolDefs, (lookupHandler config.handlers d.name).isSome = true := by
  unfold createRouter
  cases h : List.find? (fun d => (lookupHandler config.handlers d.name).isNone) config.toolDefs with
  | none =>
    simp only [Except.isOk, Except.toBool, true_iff]
    intro d hd
    have hnone := List.find?_eq_none.mp h d hd
    simpa [Option.isSome_iff_ne_none, Option.isNone_iff_eq_none] using hnone
  | some d =>
    have hp := List.find?_some h
    have hmem := List.mem_of_find?_eq_some h
    simp only [Except.isOk, Except.toBool, Bool.false_eq_true, false_iff]
    push_neg
    refine ⟨d, hmem, ?_⟩
    simp only [Option.isNone_iff_eq_none] at hp
    simp [hp]

/-- Claim C8: one run of the cleanup sweep removes (closing with code 1000)
exactly the sessions whose idle time strictly exceeds the configured
timeout, and leaves every other session in the table untouched. -/
theorem cleanup_sweep_exact (config : BridgeConfig) (now : Int)
    (table : List (String × Session)) :
    (cleanupExpiredSessions config now table).1 =
      table.filter (fun e => !decide (now - e.2.lastActivityAt > config.session.timeoutMs)) ∧
    (cleanupExpiredSessions config now table).2 =
      (table.filter (fun e => decide (now - e.2.lastActivityAt > config.session.timeoutMs))).map
        Prod.fst := by
  induction table with
  | nil => exact ⟨rfl, rfl⟩
  | cons e rest ih =>
    by_cases h : now - e.2.lastActivityAt > config.session.timeoutMs
    · simp [cleanupExpiredSessions, isSessionExpired, h, ih.1, ih.2]
    · simp [cleanupExpiredSessions, isSessionExpired, h, ih.1, ih.2]

/-- Claim C6: `disconnect()` rejects every pending request with
"Connection closed", empties the pending table, disables reconnection,
stops the heartbeat, drops authentication and transitions to
`disconnected`, for any starting state. -/
theorem disconnect_rejects_all_pending (t : WSTransport) :
    t.disconnect.1.pendingRequests = [] ∧
    t.disconnect.1.reconnectEnabled = false ∧
    t.disconnect.1.heartbeatOn = false ∧
    t.disconnect.1.authenticated = false ∧
    t.disconnect.1.state = ConnectionState.disconnected ∧
    t.disconnect.2 =
      (if t.hasSocket then [WSEffect.closeSocket 1000 "Client disconnect"] else []) ++
        t.pendingRequests.map (fun id => WSEffect.rejectPending id "Connection closed") := by
  exact ⟨rfl, rfl, rfl, rfl, rfl, rfl⟩

/-- Claim C10: once `disconnect()` runs, `reconnectEnabled` is false and no
event handler of the transport ever sets it back; a close with
reconnection disabled schedules no retry and transitions straight to
`disconnected`. -/
theorem reconnect_disabled_forever :
    (∀ t : WSTransport, t.disconnect.1.reconnectEnabled = false) ∧
    (∀ (t : WSTransport) (e : WSEvent), t.reconnectEnabled = false →
      (applyEvent t e).reconnectEnabled = false) ∧
    (∀ t : WSTransport, t.reconnectEnabled = false →
      t.handleClose.2 = none ∧ t.handleClose.1.state = ConnectionState.disconnected) := by
  refine ⟨fun t => rfl, ?_, ?_⟩
  · intro t e h
    cases e with
    | connectCall =>
      simp only [applyEvent, WSTransport.connect]
      split
      · exact h
      · exact h
    | socketOpen =>
      simp only [applyEvent, WSTransport.onOpen]
      split
      · exact h
      · exact h
    | authSuccess => exact h
    | authError => exact h
    | socketError => exact h
    | socketClose =>
      simp only [applyEvent, WSTransport.handleClose]
      split
      · exact h
      · exact h
    | reconnectTimer =>
      simp only [applyEvent, WSTransport.fireReconnectTimer, WSTransport.connect]
      split
      · exact h
      · exact h
    | disconnectCall => rfl
    | sendRequest id =>
      simp only [applyEvent]
      cases hs : t.sendMessage id with
      | error e => exact h
      | ok t1 =>
        unfold WSTransport.sendMessage at hs
        split at hs
        · exact absurd hs (by simp)
        · injection hs with h2
          rw [← h2]
          exact h
    | responseArrived id =>
      simp only [applyEvent, WSTransport.settlePending]
      split
      · exact h
      · exact h
    | requestTimeout id =>
      simp only [applyEvent, WSTransport.settlePending]
      split
      · exact h
      · exact h
    | heartbeatTick => exact h
  · intro t h
    simp [WSTransport.handleClose, h, updateState, stopHeartbeat]

/-- Witness for C10 at a concrete transport: after `disconnect()` on the
sample transport, reconnection stays disabled across a connect event, and a
subsequent close schedules nothing and lands in `disconnected`. -/
theorem reconnect_disabled_forever_witness :
    ((mkTransport sampleWSConfig).disconnect.1.reconnectEnabled = false) ∧
    ((applyEvent (mkTransport sampleWSConfig).disconnect.1 WSEvent.connectCall).reconnectEnabled
      = false) ∧
    ((mkTransport sampleWSConfig).disconnect.1.handleClose.2 = none) := by
  have h := reconnect_disabled_forever
  exact ⟨h.1 _, h.2.1 _ _ (h.1 _), (h.2.2 _ (h.1 _)).1⟩

/-- Doubling under the 30000 ms cap commutes with applying the cap. -/
theorem min_double_cap (a : Nat) : min (min a 30000 * 2) 30000 = min (a * 2) 30000 := by
  simp only [Nat.min_def]
  split_ifs <;> omega

/-- A close with reconnection enabled and attempts remaining: the transport
moves to `reconnecting`, increments the attempt counter, and schedules a
retry after the current delay. -/
theorem handleClose_reconnects (t : WSTransport) (hen : t.reconnectEnabled = true)
    (hlt : t.reconnectAttempts < t.maxReconnectAttempts) :
    t.handleClose =
      ({ t with
          heartbeatOn := false
          authenticated := false
          hasSocket := false
          state := ConnectionState.reconnecting
          reconnectAttempts := t.reconnectAttempts + 1 }, some t.reconnectDelay) := by
  simp [WSTransport.handleClose, stopHeartbeat, updateState, hen, hlt]

/-- The reconnect timer firing from the `reconnecting` state: `connect()`
proceeds and the delay doubles up to the cap. -/
theorem fireReconnectTimer_eq (t : WSTransport)
    (hst : t.state = ConnectionState.reconnecting) :
    t.fireReconnectTimer =
      { t with
          state := ConnectionState.connecting
          hasSocket := true
          reconnectDelay := min (t.reconnectDelay * 2) 30000 } := by
  simp [WSTransport.fireReconnectTimer, WSTransport.connect, updateState, hst]

/-- Invariant of the failure-cycle iteration: while attempts remain, the
`n`-th cycle leaves the transport connecting with `n` recorded attempts and
a backoff delay of `min (1000 * 2 ^ n) 30000`. -/
theorem afterFailures_invariant (config : WebSocketTransportConfig)
    (henabled : config.reconnect ≠ some false) :
    ∀ n, n ≤ (mkTransport config).maxReconnectAttempts →
      (afterFailures config n).reconnectEnabled = true ∧
      (afterFailures config n).maxReconnectAttempts = (mkTransport config).maxReconnectAttempts ∧
      (afterFailures config n).reconnectAttempts = n ∧
      (afterFailures config n).reconnectDelay = min (1000 * 2 ^ n) 30000 ∧
      (afterFailures config n).state = ConnectionState.connecting := by
  intro n
  induction n with
  | zero =>
    intro _
    have hen : (config.reconnect != some false) = true := by
      simpa [bne_iff_ne] using henabled
    refine ⟨?_, ?_, ?_, ?_, ?_⟩ <;>
      simp [afterFailures, mkTransport, WSTransport.connect, updateState, hen]
  | succ m ih =>
    intro hle
    obtain ⟨hen, hmax, hatt, hdel, hst⟩ := ih (Nat.le_of_succ_le hle)
    have hlt : (afterFailures config m).reconnectAttempts <
        (afterFailures config m).maxReconnectAttempts := by
      rw [hatt, hmax]; exact Nat.lt_of_succ_le hle
    have hstep : afterFailures config (m + 1) =
        WSTransport.fireReconnectTimer
          { afterFailures config m with
              heartbeatOn := false
              authenticated := false
              hasSocket := false
              state := ConnectionState.reconnecting
              reconnectAttempts := (afterFailures config m).reconnectAttempts + 1 } := by
      show ((afterFailures config m).handleClose).1.fireReconnectTimer = _
      rw [handleClose_reconnects _ hen hlt]
    rw [hstep, fireReconnectTimer_eq _ rfl]
    refine ⟨hen, hmax, by simp [hatt], ?_, rfl⟩
    simp only [hdel]
    rw [min_double_cap, pow_succ, ← mul_assoc]

/-- Counterexample to claim C5 as stated: after 1 failed connect attempt
the scheduled delay is 1000 ms, not `min (1000 * 2 ^ 1) 30000 = 2000` —
the doubling happens only when the retry timer fires, so the first retry
still uses the 1000 ms floor. -/
theorem backoff_first_delay_counterexample :
    scheduledReconnectDelay sampleWSConfig 1 = some 1000 ∧
    scheduledReconnectDelay sampleWSConfig 1 ≠ some (min (1000 * 2 ^ 1) 30000) := by
  refine ⟨rfl, ?_⟩
  intro hcontra
  rw [show scheduledReconnectDelay sampleWSConfig 1 = some 1000 from rfl] at hcontra
  norm_num at hcontra

/-- Claim C5 (amended): after `N ≥ 1` consecutive failed connect attempts
(attempts remaining and reconnection enabled), the delay scheduled before
attempt `N + 1` is `min (1000 * 2 ^ (N - 1)) 30000` milliseconds — one
doubling later than claimed — and a successful socket open resets the delay
to 1000 ms. -/
theorem backoff_delay_amended (config : WebSocketTransportConfig) (N : Nat)
    (henabled : config.reconnect ≠ some false) (h1 : 1 ≤ N)
    (h2 : N ≤ (mkTransport config).maxReconnectAttempts) :
    scheduledReconnectDelay config N = some (min (1000 * 2 ^ (N - 1)) 30000) ∧
    ∀ t : WSTransport, t.onOpen.reconnectDelay = 1000 := by
  constructor
  · obtain ⟨m, rfl⟩ : ∃ m, N = m + 1 := ⟨N - 1, (Nat.succ_pred_eq_of_pos h1).symm⟩
    obtain ⟨hen, hmax, hatt, hdel, hst⟩ :=
      afterFailures_invariant config henabled m (Nat.le_of_succ_le h2)
    have hlt : (afterFailures config m).reconnectAttempts <
        (afterFailures config m).maxReconnectAttempts := by
      rw [hatt, hmax]; exact Nat.lt_of_succ_le h2
    show ((afterFailures config m).handleClose).2 = _
    rw [handleClose_reconnects _ hen hlt]
    simp [hdel]
  · intro t
    cases h : t.apiKey <;> simp [WSTransport.onOpen, startHeartbeat, updateState, h]

/-- Witness for C5 (amended) at the sample configuration: the third close
schedules `min (1000 * 2 ^ 2) 30000 = 4000` ms, and an open resets the
delay of the fresh transport to 1000 ms. -/
theorem backoff_delay_amended_witness :
    scheduledReconnectDelay sampleWSConfig 3 = some (min (1000 * 2 ^ (3 - 1)) 30000) ∧
    (mkTransport sampleWSConfig).onOpen.reconnectDelay = 1000 := by
  have h := backoff_delay_amended sampleWSConfig 3 (by decide) (by decide) (by decide)
  exact ⟨h.1, h.2 _⟩

/-- Binding a successful `Except` computation applies the continuation. -/
theorem exceptOkBind {ε α β : Type} (a : α) (f : α → Except ε β) :
    (Except.ok a : Except ε α) >>= f = f a := rfl

/-- Binding a failed `Except` computation propagates the error. -/
theorem exceptErrorBind {ε α β : Type} (e : ε) (f : α → Except ε β) :
    (Except.error e : Except ε α) >>= f = Except.error e := rfl

/-- `pure` in the `Except` monad is `Except.ok`. -/
theorem exceptPureEq {ε α : Type} (a : α) : (pure a : Except ε α) = Except.ok a := rfl

/-- `checkRateLimit` inside the window: no reset, the counter just
increments. -/
theorem checkRateLimit_within (config : BridgeConfig) (now : Int) (s : Session)
    (h : now ≤ s.rateLimitResetAt) :
    checkRateLimit config now s =
      (!decide (s.requestCount + 1 > config.rateLimit.maxRequests),
       { s with requestCount := s.requestCount + 1 }) := by
  simp [checkRateLimit, not_lt.mpr h]

/-- `checkRateLimit` after the stored reset time has passed: the window is
reset and the counter restarts at 1. -/
theorem checkRateLimit_rollover (config : BridgeConfig) (now : Int) (s : Session)
    (h : now > s.rateLimitResetAt) :
    checkRateLimit config now s =
      (!decide (1 > config.rateLimit.maxRequests),
       { s with requestCount := 1, rateLimitResetAt := now + config.rateLimit.windowMs }) := by
  simp [checkRateLimit, h]

/-- Claim C4: with `maxRequests = R`, an authenticated session's
`(R + 1)`-th non-ping, non-auth message inside the window is answered with
the code-429 rate-limit error and no socket close, while a message arriving
after the stored reset time starts a fresh window (counter 1) and is
accepted and forwarded. -/
theorem rate_limit_window (config : BridgeConfig) (now : Int) (s : Session) (msg : JVal)
    (hauth : s.authenticated = true)
    (hping : isPingMessage msg = Except.ok false)
    (hauthmsg : isAuthMessage msg = Except.ok false)
    (hbridge : isBridgeMessage msg = Except.ok true) :
    (s.requestCount = config.rateLimit.maxRequests → now ≤ s.rateLimitResetAt →
      handleMessage config now s (some msg) =
        Except.ok ({ s with lastActivityAt := now, requestCount := s.requestCount + 1 },
          [BridgeEffect.send (sendErrorPayload 429 "Rate limit exceeded")])) ∧
    (now > s.rateLimitResetAt → 1 ≤ config.rateLimit.maxRequests →
      handleMessage config now s (some msg) =
        Except.ok ({ s with
            lastActivityAt := now
            requestCount := 1
            rateLimitResetAt := now + config.rateLimit.windowMs },
          [BridgeEffect.forwardToolCall msg])) := by
  constructor
  · intro hcount hwin
    have hrl := checkRateLimit_within config now { s with lastActivityAt := now } hwin
    simp only [handleMessage]
    rw [hping]
    simp only [exceptOkBind, Bool.false_eq_true, if_false]
    rw [hauthmsg]
    simp only [exceptOkBind, Bool.false_eq_true, if_false]
    rw [hrl]
    simp [hauth, hcount, exceptPureEq, exceptOkBind]
  · intro hroll hmax
    have hrl := checkRateLimit_rollover config now { s with lastActivityAt := now } hroll
    simp only [handleMessage]
    rw [hping]
    simp only [exceptOkBind, Bool.false_eq_true, if_false]
    rw [hauthmsg]
    simp only [exceptOkBind, Bool.false_eq_true, if_false]
    rw [hrl]
    have hnot : ¬ (1 > config.rateLimit.maxRequests) := not_lt.mpr hmax
    simp only [hauth, Bool.not_true, Bool.false_eq_true, if_false, hnot, decide_eq_true_eq,
      decide_eq_false hnot, Bool.not_false, Bool.not_true, if_true]
    rw [hbridge]
    simp [exceptOkBind, exceptPureEq]

/-- Witness for C4 at the sample bridge: with `maxRequests = 2`, the busy
session's third message at t=100 (inside the window) gets the 429 error and
no close, while a message at t=70000 (past the reset time) is forwarded on
a fresh window with counter 1. -/
theorem rate_limit_window_witness :
    handleMessage sampleBridgeConfig 100 sampleBusySession (some sampleBridgeMsg) =
      Except.ok ({ sampleBusySession with lastActivityAt := 100, requestCount := 3 },
        [BridgeEffect.send (sendErrorPayload 429 "Rate limit exceeded")]) ∧
    handleMessage sampleBridgeConfig 70000 sampleBusySession (some sampleBridgeMsg) =
      Except.ok ({ sampleBusySession with
          lastActivityAt := 70000
          requestCount := 1
          rateLimitResetAt := 70000 + 60000 },
        [BridgeEffect.forwardToolCall sampleBridgeMsg]) := by
  have h1 := rate_limit_window sampleBridgeConfig 100 sampleBusySession sampleBridgeMsg
    rfl rfl rfl rfl
  have h2 := rate_limit_window sampleBridgeConfig 70000 sampleBusySession sampleBridgeMsg
    rfl rfl rfl rfl
  exact ⟨h1.1 rfl (by decide), h2.2 (by decide) (by decide)⟩

/-- Counterexample to claim C7 as stated: the reply to a non-ping, non-auth
message from an unauthenticated session is `\x7b type: "auth_error",
message \x7d` — not the `\x7b jsonrpc: "2.0", error: ... \x7d` shape — and
only then is the socket force-closed. -/
theorem unauth_reply_shape_counterexample :
    handleMessage sampleBridgeConfig 5 sampleSession (some sampleBridgeMsg) =
      Except.ok ({ sampleSession with lastActivityAt := 5 },
        [BridgeEffect.send (JVal.obj [("type", JVal.str "auth_error"),
            ("message", JVal.str "Not authenticated. Send auth message first.")]),
         BridgeEffect.closeSocket 1008 "Unauthorized"]) ∧
    isGenericErrorShape (JVal.obj [("type", JVal.str "auth_error"),
        ("message", JVal.str "Not authenticated. Send auth message first.")]) = false := by
  exact ⟨rfl, rfl⟩

/-- Claim C7 (amended): the invalid-JSON, rate-limited and unknown-type
replies all use the id-less `\x7b jsonrpc: "2.0",
error: \x7b code, message \x7d \x7d` shape; the not-authenticated reply
instead uses the `\x7b type: "auth_error", message \x7d` shape, after which
the socket is force-closed with code 1008. -/
theorem generic_error_reply_shape (config : BridgeConfig) (now : Int) (s : Session)
    (msg : JVal)
    (hping : isPingMessage msg = Except.ok false)
    (hauthmsg : isAuthMessage msg = Except.ok false) :
    (∀ code m, isGenericErrorShape (sendErrorPayload code m) = true) ∧
    (handleMessage config now s none =
      Except.ok ({ s with lastActivityAt := now },
        [BridgeEffect.send (sendErrorPayload 400 "Invalid JSON message")])) ∧
    (s.authenticated = true → s.requestCount = config.rateLimit.maxRequests →
      now ≤ s.rateLimitResetAt →
      handleMessage config now s (some msg) =
        Except.ok ({ s with lastActivityAt := now, requestCount := s.requestCount + 1 },
          [BridgeEffect.send (sendErrorPayload 429 "Rate limit exceeded")])) ∧
    (s.authenticated = true → isBridgeMessage msg = Except.ok false →
      s.requestCount + 1 ≤ config.rateLimit.maxRequests →
      now ≤ s.rateLimitResetAt →
      handleMessage config now s (some msg) =
        Except.ok ({ s with lastActivityAt := now, requestCount := s.requestCount + 1 },
          [BridgeEffect.send (sendErrorPayload 400 "Unknown message type")])) ∧
    (s.authenticated = false →
      handleMessage config now s (some msg) =
        Except.ok ({ s with lastActivityAt := now },
          [BridgeEffect.send (authErrorMessage "Not authenticated. Send auth message first."),
           BridgeEffect.closeSocket 1008 "Unauthorized"]) ∧
      isGenericErrorShape (authErrorMessage "Not authenticated. Send auth message first.")
        = false) := by
  refine ⟨fun code m => rfl, rfl, ?_, ?_, ?_⟩
  · intro hauth hcount hwin
    have hrl := checkRateLimit_within config now { s with lastActivityAt := now } hwin
    simp only [handleMessage]
    rw [hping]
    simp only [exceptOkBind, Bool.false_eq_true, if_false]
    rw [hauthmsg]
    simp only [exceptOkBind, Bool.false_eq_true, if_false]
    rw [hrl]
    simp [hauth, hcount, exceptPureEq, exceptOkBind]
  · intro hauth hbridge hunder hwin
    have hrl := checkRateLimit_within config now { s with lastActivityAt := now } hwin
    simp only [handleMessage]
    rw [hping]
    simp only [exceptOkBind, Bool.false_eq_true, if_false]
    rw [hauthmsg]
    simp only [exceptOkBind, Bool.false_eq_true, if_false]
    rw [hrl]
    have hnot : ¬ (s.requestCount + 1 > config.rateLimit.maxRequests) := not_lt.mpr hunder
    simp only [hauth, Bool.not_true, Bool.false_eq_true, if_false, decide_eq_false hnot,
      Bool.not_false, if_true]
    rw [hbridge]
    simp [exceptOkBind, exceptPureEq]
  · intro hnotauth
    refine ⟨?_, rfl⟩
    simp only [handleMessage]
    rw [hping]
    simp only [exceptOkBind, Bool.false_eq_true, if_false]
    rw [hauthmsg]
    simp only [exceptOkBind, Bool.false_eq_true, if_false]
    simp [hnotauth, exceptPureEq, exceptOkBind]

/-- Witness for C7 (amended) at the sample bridge: each branch evaluated at
a concrete session and message. -/
theorem generic_error_reply_shape_witness :
    isGenericErrorShape (sendErrorPayload 400 "Invalid JSON message") = true ∧
    handleMessage sampleBridgeConfig 100 sampleBusySession none =
      Except.ok ({ sampleBusySession with lastActivityAt := 100 },
        [BridgeEffect.send (sendErrorPayload 400 "Invalid JSON message")]) ∧
    handleMessage sampleBridgeConfig 100 sampleBusySession (some sampleBridgeMsg) =
      Except.ok ({ sampleBusySession with lastActivityAt := 100, requestCount := 3 },
        [BridgeEffect.send (sendErrorPayload 429 "Rate limit exceeded")]) ∧
    handleMessage sampleBridgeConfig 100 sampleAuthSession (some sampleUnknownTypeMsg) =
      Except.ok ({ sampleAuthSession with lastActivityAt := 100, requestCount := 1 },
        [BridgeEffect.send (sendErrorPayload 400 "Unknown message type")]) ∧
    handleMessage sampleBridgeConfig 5 sampleSession (some sampleBridgeMsg) =
      Except.ok ({ sampleSession with lastActivityAt := 5 },
        [BridgeEffect.send (authErrorMessage "Not authenticated. Send auth message first."),
         BridgeEffect.closeSocket 1008 "Unauthorized"]) := by
  have h1 := generic_error_reply_shape sampleBridgeConfig 100 sampleBusySession sampleBridgeMsg
    rfl rfl
  have h2 := generic_error_reply_shape sampleBridgeConfig 100 sampleAuthSession
    sampleUnknownTypeMsg rfl rfl
  have h3 := generic_error_reply_shape sampleBridgeConfig 5 sampleSession sampleBridgeMsg
    rfl rfl
  exact ⟨h1.1 400 "Invalid JSON message", h1.2.1, h1.2.2.1 rfl rfl (by decide),
    h2.2.2.2.1 rfl rfl (by decide) (by decide), (h3.2.2.2.2 rfl).1⟩

/-- `throw` in the `Except` monad is `Except.error`. -/
theorem exceptThrowEq {ε α : Type} (e : ε) : (throw e : Except ε α) = Except.error e := rfl

/-- Counterexample to claim C1 as stated: `handle(null)` reads
`msg.method` before the try block and rejects with a raw `TypeError`
instead of returning an error object. -/
theorem handle_null_rejects :
    sampleRouter.handle JVal.null [] =
      Except.error (JsErr.typeError "Cannot read properties of null (reading method)") := rfl

/-- Claim C1 (amended): for every message other than `null`/`undefined`
(and every context override), `handle` resolves with a well-formed
response or error object and never rejects; a nullish message rejects with
a `TypeError` from the unguarded `msg.method` read. -/
theorem handle_total_amended (r : RouterModel) (message : JVal) (context : RouterContext)
    (hnull : message ≠ JVal.null) (hundef : message ≠ JVal.undefined) :
    (r.handle message context).isOk = true := by
  obtain ⟨v, hv⟩ : ∃ v, message.getField "method" = Except.ok v := by
    cases message with
    | null => exact absurd rfl hnull
    | undefined => exact absurd rfl hundef
    | bool b => exact ⟨_, rfl⟩
    | num n => exact ⟨_, rfl⟩
    | str s => exact ⟨_, rfl⟩
    | arr xs => exact ⟨_, rfl⟩
    | obj fs => exact ⟨_, rfl⟩
  simp only [RouterModel.handle]
  rw [hv]
  simp only [exceptOkBind, exceptPureEq]
  repeat' split
  all_goals rfl

/-- Witness for C1 (amended) at a concrete non-nullish message. -/
theorem handle_total_witness :
    (sampleRouter.handle (JVal.obj []) []).isOk = true :=
  handle_total_amended sampleRouter (JVal.obj []) []
    (fun h => JVal.noConfusion h) (fun h => JVal.noConfusion h)

/-- Counterexample to claim C2 as stated: a `tools/call` for an
unregistered tool makes `handle` return the `\x7b error \x7d` envelope
(the `ToolExecutionError` is thrown outside `handleToolsCall`'s try
block), not a tool result with `isError: true`. -/
theorem unknown_tool_counterexample :
    sampleRouter.handle sampleUnknownToolMsg [] =
      Except.ok (HandleResult.errResp { code := -1, message := "Tool not found: missing" }) := rfl

/-- Claim C2 (amended): for a tool name with no handler entry, `callTool`
throws a `ToolExecutionError` whose `toolName` carries the name, and
`handle` of a `tools/call` naming it returns (does not throw) the
`\x7b error: \x7b code: -1, message: "Tool not found: ..." \x7d \x7d`
envelope rather than an `isError: true` result. -/
theorem unknown_tool_amended (r : RouterModel) (name : String) (params : JVal)
    (context : RouterContext)
    (habsent : lookupHandler r.handlers name = none) :
    r.callTool name params context =
      Except.error (JsErr.toolExecutionError ("Tool not found: " ++ name) name none) ∧
    r.handle (JVal.obj [("method", JVal.str "tools/call"),
        ("params", JVal.obj [("name", JVal.str name)])]) context =
      Except.ok (HandleResult.errResp { code := -1, message := "Tool not found: " ++ name }) := by
  constructor
  · simp only [RouterModel.callTool, habsent]
  · simp [RouterModel.handle, RouterModel.handleToolsCall, JVal.getField, lookupField,
      JVal.truthy, jsToString, habsent, normalizeError, JsErr.message, exceptOkBind,
      exceptErrorBind, exceptPureEq, exceptThrowEq]

/-- Witness for C2 (amended) at the empty sample router. -/
theorem unknown_tool_amended_witness :
    sampleRouter.callTool "missing" (JVal.obj []) [] =
      Except.error (JsErr.toolExecutionError "Tool not found: missing" "missing" none) ∧
    sampleRouter.handle (JVal.obj [("method", JVal.str "tools/call"),
        ("params", JVal.obj [("name", JVal.str "missing")])]) [] =
      Except.ok (HandleResult.errResp { code := -1, message := "Tool not found: missing" }) :=
  unknown_tool_amended sampleRouter "missing" (JVal.obj []) [] rfl

/-- Context lookup through the spread merge: an override entry wins, and a
key absent from the override falls back to the base context. -/
theorem ctxLookup_merge (base override : RouterContext) (key : String) :
    ctxLookup (mergeContext base override) key =
      (ctxLookup override key).or (ctxLookup base key) := by
  simp only [ctxLookup, mergeContext, List.find?_append]
  cases h : List.find? (fun p => p.1 == key) override <;> simp [h]

/-- Claim C9: the context a handler observes through `callTool` (and
through `handle` of `tools/call`) is the override-wins merge — a key
present in the override is seen with the override's value, and a key
absent from the override keeps the base context's value. -/
theorem context_merge_override_wins (base override : RouterContext) (key : String)
    (defs : List ToolDefinition) (toolName : String) (params : JVal) :
    (∀ v, ctxLookup override key = some v →
      RouterModel.callTool ⟨defs, [(toolName, probeHandler key)], base⟩
          toolName params override =
        Except.ok { content := [ContentItem.text (jsToString v)], isError := some false }) ∧
    (ctxLookup override key = none →
      RouterModel.callTool ⟨defs, [(toolName, probeHandler key)], base⟩
          toolName params override =
        Except.ok { content := [ContentItem.text
            (jsToString ((ctxLookup base key).getD JVal.undefined))], isError := some false }) ∧
    (∀ v, ctxLookup override key = some v →
      RouterModel.handle ⟨defs, [(toolName, probeHandler key)], base⟩
          (JVal.obj [("method", JVal.str "tools/call"),
            ("params", JVal.obj [("name", JVal.str toolName)])]) override =
        Except.ok (HandleResult.callResp
          { content := [ContentItem.text (jsToString v)], isError := some false })) := by
  refine ⟨?_, ?_, ?_⟩
  · intro v hv
    simp [RouterModel.callTool, lookupHandler, probeHandler, ctxLookup_merge, hv]
  · intro hnone
    simp [RouterModel.callTool, lookupHandler, probeHandler, ctxLookup_merge, hnone]
  · intro v hv
    simp [RouterModel.handle, RouterModel.handleToolsCall, JVal.getField, lookupField,
      JVal.truthy, jsToString, lookupHandler, probeHandler, ctxLookup_merge, hv,
      exceptOkBind, exceptErrorBind, exceptPureEq, exceptThrowEq]

/-- Witness for C9 at concrete contexts: the override's value 2 wins over
the base's 1 for the shared key, and the base-only key stays visible. -/
theorem context_merge_witness :
    RouterModel.callTool ⟨[], [("t", probeHandler "k")], [("k", JVal.num 1), ("only", JVal.num 7)]⟩
        "t" (JVal.obj []) [("k", JVal.num 2)] =
      Except.ok { content := [ContentItem.text (jsToString (JVal.num 2))]
                  isError := some false } ∧
    RouterModel.callTool
        ⟨[], [("t", probeHandler "only")], [("k", JVal.num 1), ("only", JVal.num 7)]⟩
        "t" (JVal.obj []) [("k", JVal.num 2)] =
      Except.ok { content := [ContentItem.text
          (jsToString ((ctxLookup [("k", JVal.num 1), ("only", JVal.num 7)] "only").getD
            JVal.undefined))]
                  isError := some false } ∧
    RouterModel.handle ⟨[], [("t", probeHandler "k")], [("k", JVal.num 1)]⟩
        (JVal.obj [("method", JVal.str "tools/call"),
          ("params", JVal.obj [("name", JVal.str "t")])]) [("k", JVal.num 2)] =
      Except.ok (HandleResult.callResp
        { content := [ContentItem.text (jsToString (JVal.num 2))], isError := some false }) := by
  have h1 := context_merge_override_wins [("k", JVal.num 1), ("only", JVal.num 7)]
    [("k", JVal.num 2)] "k" [] "t" (JVal.obj [])
  have h2 := context_merge_override_wins [("k", JVal.num 1), ("only", JVal.num 7)]
    [("k", JVal.num 2)] "only" [] "t" (JVal.obj [])
  have h3 := context_merge_override_wins [("k", JVal.num 1)]
    [("k", JVal.num 2)] "k" [] "t" (JVal.obj [])
  exact ⟨h1.1 (JVal.num 2) rfl, h2.2.1 rfl, h3.2.2 (JVal.num 2) rfl⟩
